import Mathlib

/-!
Verification development for the AeroVision_Platform flight-arrivals scraper
(src/ELT-Pipline/extract_load/arrivals.py and util/database.py).

The Python program is embedded shallowly:
  - JSON documents (Python dicts, lists, strings, ints, booleans, None)
    become the inductive type JValue; Python dicts are insertion-ordered
    association lists, exactly as CPython guarantees.
  - Fallible Python code becomes Except PyError; a KeyError from a dict
    lookup is PyError.keyError, indexing or iterating a value of the wrong
    shape is PyError.typeError.
  - External effects (the database query, the CSV read, the HTTP fetch)
    are passed in as oracle parameters; logging is returned explicitly as
    a list of (level, message) entries.
  - JSON numbers are modelled as integers; fractional and exponent forms
    are floating point and are outside the model (the claims never touch
    them), so the embedded parser rejects them.
-/

namespace AeroVision

/-- Logging levels of the Python logging module as used by arrivals.py. -/
inductive LogLevel where
  | debug
  | info
  | warning
  | error
deriving DecidableEq, Repr

/-- The distinct log messages emitted by arrivals.py, with the data they
carry that matters to the claims (the missing key name, the record count,
the destination path). -/
inductive LogMsg where
  | fetchingData
  | responseSnippet
  | fetchFailed
  | noJsonFound
  | jsonDecodeFailed
  | keyMissing (k : String)
  | flightsFound (n : Nat)
  | fetchingFromDb
  | dbFallback
  | noFlightData
  | savingTo (p : String)
  | sampleResults
  | done
deriving DecidableEq, Repr

/-- A log record: level paired with message. -/
abbrev LogEntry := LogLevel × LogMsg

/-- Python exceptions relevant to the embedded fragment. -/
inductive PyError where
  | keyError (k : String)
  | typeError
deriving DecidableEq, Repr

/-- JSON values / Python objects produced by json.loads in arrivals.py.
Objects are insertion-ordered association lists, as Python dicts are. -/
inductive JValue where
  | str (s : String)
  | num (n : Int)
  | bool (b : Bool)
  | null
  | arr (xs : List JValue)
  | obj (kvs : List (String × JValue))

/-- First-match association-list lookup, the embedding of a Python dict
read d[k] succeeding (Python dict keys are unique, so first match is the
match). -/
def assocLookup : List (String × JValue) → String → Option JValue
  | [], _ => none
  | (k, v) :: rest, key => if k = key then some v else assocLookup rest key

/-- Python dict assignment d[k] = x: replaces the value in place if the
key exists, otherwise appends the new pair at the end (insertion order). -/
def assocSet : List (String × JValue) → String → JValue → List (String × JValue)
  | [], key, x => [(key, x)]
  | (k, v) :: rest, key, x =>
      if k = key then (k, x) :: rest else (k, v) :: assocSet rest key x

/-- Python subscript read v[key] with a string key: KeyError when the key
is absent from a dict, TypeError when v is not a dict. -/
def getKey (v : JValue) (key : String) : Except PyError JValue :=
  match v with
  | JValue.obj kvs =>
      match assocLookup kvs key with
      | some x => Except.ok x
      | none => Except.error (PyError.keyError key)
  | _ => Except.error PyError.typeError

/-- Python subscript write v[key] = x: updates a dict, TypeError otherwise. -/
def setKey (v : JValue) (key : String) (x : JValue) : Except PyError JValue :=
  match v with
  | JValue.obj kvs => Except.ok (JValue.obj (assocSet kvs key x))
  | _ => Except.error PyError.typeError

/-- Short-circuiting effectful map over a list, the embedding of the
Python for-loop body over flights: the first raised error aborts. -/
def mapExcept (f : JValue → Except PyError JValue) : List JValue → Except PyError (List JValue)
  | [] => Except.ok []
  | x :: xs =>
      match f x with
      | Except.error e => Except.error e
      | Except.ok y =>
          match mapExcept f xs with
          | Except.error e => Except.error e
          | Except.ok ys => Except.ok (y :: ys)

/-- One iteration of the enrichment loop in scrap_flight_stats
(arrivals.py lines 151-156): look up the header under the flight tracker
and copy date, iata, icao and airport name into the flight dict, in the
order the Python statements execute their subscript operations. -/
def enrichFlight (flightTracker flight : JValue) : Except PyError JValue :=
  match getKey flightTracker "route" with
  | Except.error e => Except.error e
  | Except.ok route =>
  match getKey route "header" with
  | Except.error e => Except.error e
  | Except.ok header =>
  match getKey header "date" with
  | Except.error e => Except.error e
  | Except.ok dv =>
  match setKey flight "date" dv with
  | Except.error e => Except.error e
  | Except.ok f1 =>
  match getKey header "arrivalAirport" with
  | Except.error e => Except.error e
  | Except.ok aa1 =>
  match getKey aa1 "iata" with
  | Except.error e => Except.error e
  | Except.ok iv =>
  match setKey f1 "iata" iv with
  | Except.error e => Except.error e
  | Except.ok f2 =>
  match getKey header "arrivalAirport" with
  | Except.error e => Except.error e
  | Except.ok aa2 =>
  match getKey aa2 "icao" with
  | Except.error e => Except.error e
  | Except.ok cv =>
  match setKey f2 "icao" cv with
  | Except.error e => Except.error e
  | Except.ok f3 =>
  match getKey header "arrivalAirport" with
  | Except.error e => Except.error e
  | Except.ok aa3 =>
  match getKey aa3 "name" with
  | Except.error e => Except.error e
  | Except.ok nv =>
  setKey f3 "airport_name" nv

/-- The body of the final try block of scrap_flight_stats (lines 148-158):
navigate json_data to the flight list and enrich every flight.  A flights
value that is not a JSON array is iterated-and-assigned in ways that can
only raise TypeError in Python, which the except KeyError clause does not
catch; the model maps every non-array there to TypeError. -/
def flattenCore (jsonData : JValue) : Except PyError (List JValue) :=
  match getKey jsonData "props" with
  | Except.error e => Except.error e
  | Except.ok props =>
  match getKey props "initialState" with
  | Except.error e => Except.error e
  | Except.ok initialState =>
  match getKey initialState "flightTracker" with
  | Except.error e => Except.error e
  | Except.ok flightTracker =>
  match getKey flightTracker "route" with
  | Except.error e => Except.error e
  | Except.ok route =>
  match getKey route "flights" with
  | Except.error e => Except.error e
  | Except.ok flightsVal =>
  match flightsVal with
  | JValue.arr flights => mapExcept (enrichFlight flightTracker) flights
  | _ => Except.error PyError.typeError

/-- The whole try/except KeyError region of scrap_flight_stats
(lines 147-163): on success the enriched flights are returned with an
INFO count log; a KeyError anywhere inside yields an empty list plus an
ERROR log naming the missing key; a TypeError is not caught and
propagates. -/
def flattenStage (jsonData : JValue) : Except PyError (List JValue × List LogEntry) :=
  match flattenCore jsonData with
  | Except.ok flights =>
      Except.ok (flights, [(LogLevel.info, LogMsg.flightsFound flights.length)])
  | Except.error (PyError.keyError k) =>
      Except.ok ([], [(LogLevel.error, LogMsg.keyMissing k)])
  | Except.error PyError.typeError => Except.error PyError.typeError

/-! ### The embedded-JSON extractor: re.search of the marker pattern

The pattern in arrivals.py line 137 is, with DOTALL set, searched over
the response text.  The model implements exactly the leftmost search and
the lazy quantifier semantics of the Python re module for this fixed
pattern: at the leftmost feasible start, the captured object body is the
shortest run of arbitrary characters closed by a brace whose tail
consists of optional whitespace and then a semicolon or an opening angle
bracket. -/

/-- ASCII whitespace matched by the backslash-s class of the re module. -/
def pySpace (c : Char) : Bool :=
  c = ' ' || c = '\t' || c = '\n' || c = '\r' || c = '\x0b' || c = '\x0c'

/-- Match a literal character sequence at the head of the input,
returning the remainder on success. -/
def matchLiteral : List Char → List Char → Option (List Char)
  | [], cs => some cs
  | _ :: _, [] => none
  | l :: ls, c :: cs => if c = l then matchLiteral ls cs else none

/-- The trailing context of the capture group: optional whitespace, then
a semicolon or the start of an HTML tag. -/
def termOk (cs : List Char) : Bool :=
  match cs.dropWhile pySpace with
  | ';' :: _ => true
  | '<' :: _ => true
  | _ => false

/-- The lazy dot-star of the pattern under DOTALL: the shortest body of
arbitrary characters followed by a closing brace whose tail context is
accepted; backtracking past a brace with a bad tail keeps it as body. -/
def lazyBody : List Char → Option (List Char)
  | [] => none
  | c :: rest =>
      if c = '\x7d' && termOk rest then some []
      else
        match lazyBody rest with
        | some content => some (c :: content)
        | none => none

/-- The literal marker token of the pattern. -/
def markerChars : List Char := "__NEXT_DATA__".data

/-- Attempt the whole pattern at the start of the input, returning the
capture group (the object literal including both braces) on success. -/
def matchAt (cs : List Char) : Option (List Char) :=
  match matchLiteral markerChars cs with
  | none => none
  | some r1 =>
      match r1.dropWhile pySpace with
      | '=' :: r2 =>
          match r2.dropWhile pySpace with
          | '\x7b' :: r3 =>
              match lazyBody r3 with
              | some content => some ('\x7b' :: content ++ ['\x7d'])
              | none => none
          | _ => none
      | _ => none

/-- Leftmost search, the semantics of re.search: try the pattern at each
position from the left and return the first capture. -/
def reSearch : List Char → Option (List Char)
  | [] => none
  | c :: rest =>
      match matchAt (c :: rest) with
      | some g => some g
      | none => reSearch rest

/-- String-level wrapper around the search: the capture group of the
pattern over the response text, when any match exists. -/
def reSearchGroup (text : String) : Option String :=
  (reSearch text.data).map (fun l => ⟨l⟩)

/-! ### json.loads, modelled as a fuelled recursive-descent reader

Restrictions of the model, none of which the claims touch: numbers are
integers only (fractional and exponent forms are floating point and so
unrepresentable here), unicode escapes do not combine surrogate pairs,
and duplicate object keys are kept instead of last-wins collapsed. -/

/-- JSON interelement whitespace. -/
def jsonWs (c : Char) : Bool := c = ' ' || c = '\t' || c = '\n' || c = '\r'

/-- Value of one hexadecimal digit. -/
def hexVal (c : Char) : Option Nat :=
  if '0' ≤ c ∧ c ≤ '9' then some (c.toNat - 48)
  else if 'a' ≤ c ∧ c ≤ 'f' then some (c.toNat - 87)
  else if 'A' ≤ c ∧ c ≤ 'F' then some (c.toNat - 55)
  else none

/-- Decode one escape sequence after a backslash inside a JSON string. -/
def readEscape : List Char → Option (Char × List Char)
  | 'u' :: a :: b :: c :: d :: rest =>
      match hexVal a, hexVal b, hexVal c, hexVal d with
      | some ha, some hb, some hc, some hd =>
          some (Char.ofNat (((ha * 16 + hb) * 16 + hc) * 16 + hd), rest)
      | _, _, _, _ => none
  | '"' :: rest => some ('"', rest)
  | '\\' :: rest => some ('\\', rest)
  | '/' :: rest => some ('/', rest)
  | 'b' :: rest => some ('\x08', rest)
  | 'f' :: rest => some ('\x0c', rest)
  | 'n' :: rest => some ('\n', rest)
  | 'r' :: rest => some ('\r', rest)
  | 't' :: rest => some ('\t', rest)
  | _ => none

/-- Read the body of a JSON string after its opening quote, rejecting
raw control characters as the strict mode of json.loads does. -/
def readStringBody : Nat → List Char → Option (List Char × List Char)
  | 0, _ => none
  | _ + 1, [] => none
  | _ + 1, '"' :: rest => some ([], rest)
  | fuel + 1, '\\' :: rest =>
      match readEscape rest with
      | none => none
      | some (c, rest2) =>
          match readStringBody fuel rest2 with
          | none => none
          | some (s, rest3) => some (c :: s, rest3)
  | fuel + 1, c :: rest =>
      if c.toNat < 32 then none
      else
        match readStringBody fuel rest with
        | none => none
        | some (s, rest2) => some (c :: s, rest2)

/-- Accumulate a digit run into a natural number. -/
def digitsToNat (ds : List Char) : Nat :=
  ds.foldl (fun acc c => acc * 10 + (c.toNat - 48)) 0

/-- Read a JSON integer token: optional minus, digit run without leading
zeros; fractional and exponent continuations are outside the model. -/
def readNumberTok (cs : List Char) : Option (Int × List Char) :=
  let parts := match cs with
    | '-' :: r => (true, r)
    | _ => (false, cs)
  let ds := parts.2.takeWhile Char.isDigit
  let rest := parts.2.dropWhile Char.isDigit
  if ds = [] then none
  else if 1 < ds.length ∧ ds.headI = '0' then none
  else
    match rest with
    | '.' :: _ => none
    | 'e' :: _ => none
    | 'E' :: _ => none
    | _ => some (if parts.1 then -(digitsToNat ds : Int) else (digitsToNat ds : Int), rest)

mutual

/-- Read one JSON value after skipping whitespace. -/
def readValue : Nat → List Char → Option (JValue × List Char)
  | 0, _ => none
  | fuel + 1, cs =>
      match cs.dropWhile jsonWs with
      | 't' :: 'r' :: 'u' :: 'e' :: rest => some (JValue.bool true, rest)
      | 'f' :: 'a' :: 'l' :: 's' :: 'e' :: rest => some (JValue.bool false, rest)
      | 'n' :: 'u' :: 'l' :: 'l' :: rest => some (JValue.null, rest)
      | '"' :: rest =>
          match readStringBody (rest.length + 1) rest with
          | none => none
          | some (s, rest2) => some (JValue.str ⟨s⟩, rest2)
      | '\x7b' :: rest => readObjBody fuel rest
      | '[' :: rest => readArrBody fuel rest
      | cs2 =>
          match readNumberTok cs2 with
          | none => none
          | some (n, rest) => some (JValue.num n, rest)

/-- Read the members of an object after its opening brace. -/
def readObjBody : Nat → List Char → Option (JValue × List Char)
  | 0, _ => none
  | fuel + 1, cs =>
      match cs.dropWhile jsonWs with
      | '\x7d' :: rest => some (JValue.obj [], rest)
      | _ =>
          match readMembers fuel cs with
          | none => none
          | some (kvs, rest) => some (JValue.obj kvs, rest)

/-- Read a nonempty comma-separated member list up to the closing brace. -/
def readMembers : Nat → List Char → Option (List (String × JValue) × List Char)
  | 0, _ => none
  | fuel + 1, cs =>
      match cs.dropWhile jsonWs with
      | '"' :: rest =>
          match readStringBody (rest.length + 1) rest with
          | none => none
          | some (key, rest2) =>
              match rest2.dropWhile jsonWs with
              | ':' :: rest3 =>
                  match readValue fuel rest3 with
                  | none => none
                  | some (v, rest4) =>
                      match rest4.dropWhile jsonWs with
                      | ',' :: rest5 =>
                          match readMembers fuel rest5 with
                          | none => none
                          | some (kvs, rest6) => some ((⟨key⟩, v) :: kvs, rest6)
                      | '\x7d' :: rest5 => some ([(⟨key⟩, v)], rest5)
                      | _ => none
              | _ => none
      | _ => none

/-- Read the elements of an array after its opening bracket. -/
def readArrBody : Nat → List Char → Option (JValue × List Char)
  | 0, _ => none
  | fuel + 1, cs =>
      match cs.dropWhile jsonWs with
      | ']' :: rest => some (JValue.arr [], rest)
      | _ =>
          match readElems fuel cs with
          | none => none
          | some (xs, rest) => some (JValue.arr xs, rest)

/-- Read a nonempty comma-separated element list up to the closing
bracket. -/
def readElems : Nat → List Char → Option (List JValue × List Char)
  | 0, _ => none
  | fuel + 1, cs =>
      match readValue fuel cs with
      | none => none
      | some (v, rest) =>
          match rest.dropWhile jsonWs with
          | ',' :: rest2 =>
              match readElems fuel rest2 with
              | none => none
              | some (xs, rest3) => some (v :: xs, rest3)
          | ']' :: rest2 => some ([v], rest2)
          | _ => none

end

/-- The json.loads call of arrivals.py line 142: the whole input must be
one JSON value surrounded by optional whitespace. -/
def jsonLoads (s : String) : Option JValue :=
  match readValue (s.length + 8) s.data with
  | some (v, rest) => if rest.dropWhile jsonWs = [] then some v else none
  | none => none

/-- The extraction sub-chain of scrap_flight_stats lines 136-145: find
the embedded object literal by pattern search, then parse it. -/
def extractNextData (text : String) : Option JValue :=
  match reSearchGroup text with
  | none => none
  | some g => jsonLoads g

/-- The whole of scrap_flight_stats (lines 123-163) given the outcome of
the HTTP fetch as an oracle value: a fetch failure, a missing marker and
a JSON decode failure each yield an empty record list with the logged
diagnostic; otherwise the flattener runs.  Only an uncaught TypeError
escapes as an error. -/
def scrap_flight_stats (fetched : Except String String) : Except PyError (List JValue × List LogEntry) :=
  match fetched with
  | Except.error _ =>
      Except.ok ([], [(LogLevel.info, LogMsg.fetchingData), (LogLevel.error, LogMsg.fetchFailed)])
  | Except.ok text =>
      match reSearchGroup text with
      | none =>
          Except.ok ([], [(LogLevel.info, LogMsg.fetchingData), (LogLevel.debug, LogMsg.responseSnippet),
            (LogLevel.warning, LogMsg.noJsonFound)])
      | some g =>
          match jsonLoads g with
          | none =>
              Except.ok ([], [(LogLevel.info, LogMsg.fetchingData), (LogLevel.debug, LogMsg.responseSnippet),
                (LogLevel.error, LogMsg.jsonDecodeFailed)])
          | some jd =>
              match flattenStage jd with
              | Except.error e => Except.error e
              | Except.ok (recs, logs) =>
                  Except.ok (recs, (LogLevel.info, LogMsg.fetchingData) :: (LogLevel.debug, LogMsg.responseSnippet) :: logs)

/-! ### The airport-code resolver and the database connection scope -/

/-- Which resolver paths a run of get_airport_code_list attempted, in
order. -/
inductive ResolverPath where
  | primary
  | fallback
deriving DecidableEq, Repr

/-- The try/except of get_airport_code_list (arrivals.py lines 95-101)
with the two path bodies as oracles over the code-type and country
arguments: the primary database path is tried; on any exception the CSV
fallback is tried and its outcome, success or exception, is final.  The
second component records which paths were attempted. -/
def get_airport_code_list
    (dbFetch csvFetch : String → String → Except PyError (List String))
    (iataOrIcao country : String) :
    (Except PyError (List String)) × List ResolverPath :=
  match dbFetch iataOrIcao country with
  | Except.ok codes => (Except.ok codes, [ResolverPath.primary])
  | Except.error _ =>
      (csvFetch iataOrIcao country, [ResolverPath.primary, ResolverPath.fallback])

/-- State of the scoped database connection of util/database.py: whether
connection.close has run. -/
structure ConnState where
  closed : Bool
deriving DecidableEq, Repr

/-- The context-manager scope closing hook of DatabaseConnection
(database.py lines 27-28): closes the connection unconditionally,
ignoring the exception information, and returns None so an in-flight
exception is never suppressed. -/
def DatabaseConnection.close (st : ConnState) : ConnState :=
  { st with closed := true }

/-- The body of get_airport_code_list_db (arrivals.py lines 104-108)
with the query outcome as an oracle: the with-statement runs the scope
hook on both the normal and the exceptional exit, and the result or
exception of the block body is passed through unchanged. -/
def get_airport_code_list_db (queryResult : Except PyError (List String)) :
    Except PyError (List String) × ConnState :=
  match queryResult with
  | Except.ok v => (Except.ok v, DatabaseConnection.close ⟨false⟩)
  | Except.error e => (Except.error e, DatabaseConnection.close ⟨false⟩)

/-! ### The aggregator/writer: pd.json_normalize, column renaming, to_csv -/

/-- Flatten the pairs of a nested JSON object the way pd.json_normalize
does: nested objects contribute their flattened keys joined to the outer
key with a dot, every other value is a leaf; arrays are kept as leaves. -/
def flattenPairs : List (String × JValue) → List (String × JValue)
  | [] => []
  | (k, JValue.obj kvs) :: rest =>
      (flattenPairs kvs).map (fun p => (k ++ "." ++ p.1, p.2)) ++ flattenPairs rest
  | (k, v) :: rest => (k, v) :: flattenPairs rest

/-- Member pairs of a record; the flight records fed to json_normalize
are always dicts in this pipeline. -/
def objPairs : JValue → List (String × JValue)
  | JValue.obj kvs => kvs
  | _ => []

/-- Keep the first occurrence of each column name, dropping later
duplicates, as the pandas column union does. -/
def dedupFirst (l : List String) : List String :=
  l.foldl (fun acc x => if x ∈ acc then acc else acc ++ [x]) []

/-- A tabular frame: ordered column names and rows of optional cells
(a missing key becomes an absent cell, the NaN of pandas). -/
structure DataFrame where
  columns : List String
  rows : List (List (Option JValue))

/-- The pd.json_normalize call of arrivals.py line 77: one row per
record in order, columns the first-appearance union of the flattened
keys of all records. -/
def json_normalize (records : List JValue) : DataFrame :=
  let flat := records.map (fun r => flattenPairs (objPairs r))
  let cols := dedupFirst (flat.flatMap (fun kvs => kvs.map Prod.fst))
  ⟨cols, flat.map (fun kvs => cols.map (fun c => assocLookup kvs c))⟩

/-- Replace a dot by an underscore, leaving every other character
untouched. -/
def replaceDotChar (c : Char) : Char := if c = '.' then '_' else c

/-- The column renaming of arrivals.py line 78, the str.replace of
every dot in a column name by an underscore (literal replacement, the
modern pandas default). -/
def colNormalize (s : String) : String := ⟨s.data.map replaceDotChar⟩

/-- Apply the column renaming to a frame; the rows are untouched. -/
def renameColumns (df : DataFrame) : DataFrame :=
  { df with columns := df.columns.map colNormalize }

/-- POSIX path join as os.path.join composes the fixed output paths. -/
def pathJoin (a b : String) : String := a ++ "/" ++ b

/-- The configuration values the writer consumes: the two output
directories and the arrivals output file name. -/
structure Config where
  dbtDataDir : String
  outputDir : String
  arrivalsFileName : String

/-- The two fixed destination paths of arrivals.py lines 83-86, fully
determined by the configuration and independent of the data. -/
def output_paths (cfg : Config) : List String :=
  [pathJoin cfg.dbtDataDir cfg.arrivalsFileName,
   pathJoin cfg.outputDir cfg.arrivalsFileName]

/-- One call of DataFrame.to_csv as issued at arrivals.py line 90: the
destination path, the written table, and the two keyword options the
call fixes. -/
structure CsvWrite where
  filePath : String
  table : DataFrame
  index : Bool
  encoding : String

/-- The four fixed hours of arrivals.py line 66. -/
def valid_hours : List Nat := [0, 6, 12, 18]

/-- The accumulation loop of arrivals.py lines 69-71 with the per-window
flattened records as an oracle: for each airport code in resolver order
and each valid hour in listed order, the records of that window are
appended. -/
def collectFlights (codes : List String) (oracle : String → Nat → List JValue) : List JValue :=
  codes.flatMap (fun c => valid_hours.flatMap (fun h => oracle c h))

/-- The fetch windows the run processes: the cross product of the
resolved airport codes with the four fixed hours, in loop order. -/
def windows (codes : List String) : List (String × Nat) :=
  codes.flatMap (fun c => valid_hours.map (fun h => (c, h)))

/-- The aggregator/writer tail of main (arrivals.py lines 73-93): when
no records were collected, a warning and no writes; otherwise the
normalized, column-renamed table is written to the two fixed paths with
no index column and UTF-8 encoding. -/
def mainRun (cfg : Config) (codes : List String) (oracle : String → Nat → List JValue) :
    List CsvWrite × List LogEntry :=
  let flights := collectFlights codes oracle
  if flights.isEmpty then
    ([], [(LogLevel.warning, LogMsg.noFlightData)])
  else
    let df := renameColumns (json_normalize flights)
    ((output_paths cfg).map (fun p => ⟨p, df, false, "utf-8"⟩),
     (output_paths cfg).map (fun p => (LogLevel.info, LogMsg.savingTo p)) ++
       [(LogLevel.info, LogMsg.sampleResults), (LogLevel.info, LogMsg.done)])

/-! ### Concrete sample documents used by the claims -/

/-- A parsed document whose navigation path is fully present except that
the header lacks the date key, with one flight entry. -/
def docMissingDate : JValue :=
  JValue.obj [("props", JValue.obj [("initialState", JValue.obj [("flightTracker",
    JValue.obj [("route", JValue.obj [
      ("flights", JValue.arr [JValue.obj [("flight", JValue.str "TU 721")]]),
      ("header", JValue.obj [("arrivalAirport", JValue.obj [
        ("iata", JValue.str "TUN"), ("icao", JValue.str "DTTA"),
        ("name", JValue.str "Tunis-Carthage")])])])])])])]

/-- A synthetic HTML page embedding the marker assignment of an object
literal with a single member. -/
def htmlSample : String := "<html><script>__NEXT_DATA__ = \x7b\"a\":1\x7d;</script></html>"

/-! ### Helper lemmas -/

/-- A successful literal match splits the input as literal plus rest. -/
theorem matchLiteral_eq_append : ∀ (l cs r : List Char), matchLiteral l cs = some r → cs = l ++ r
  | [], cs, r, h => by
      simp only [matchLiteral, Option.some.injEq] at h
      simp [h]
  | _ :: _, [], _, h => by simp [matchLiteral] at h
  | a :: as, c :: cs, r, h => by
      simp only [matchLiteral] at h
      by_cases hc : c = a
      · rw [if_pos hc] at h
        have := matchLiteral_eq_append as cs r h
        simp [this, hc]
      · rw [if_neg hc] at h
        exact absurd h (by simp)

/-- A successful search implies the marker token occurs in the input. -/
theorem reSearch_some_marker_occurs : ∀ (cs g : List Char), reSearch cs = some g → markerChars <:+: cs
  | [], g, h => by simp [reSearch] at h
  | c :: rest, g, h => by
      rw [reSearch] at h
      cases hm : matchAt (c :: rest) with
      | some g2 =>
          have hr : ∃ r, matchLiteral markerChars (c :: rest) = some r := by
            rw [matchAt] at hm
            cases hl : matchLiteral markerChars (c :: rest) with
            | none => rw [hl] at hm; exact absurd hm (by simp)
            | some r => exact ⟨r, rfl⟩
          obtain ⟨r, hrm⟩ := hr
          exact ⟨[], r, by simp [(matchLiteral_eq_append markerChars (c :: rest) r hrm).symm]⟩
      | none =>
          rw [hm] at h
          obtain ⟨s, t, hst⟩ := reSearch_some_marker_occurs rest g h
          exact ⟨c :: s, t, by simp [← hst]⟩

/-! ### Claim theorems -/

/-- C1: for every code-type and country, if the primary database path of
the airport-code resolver raises any exception, the CSV fallback path is
attempted exactly once and its result or exception becomes the final
result; if the primary path succeeds, the fallback is never attempted. -/
theorem c1_resolver_fallback
    (dbFetch csvFetch : String → String → Except PyError (List String))
    (t c : String) :
    (∀ e, dbFetch t c = Except.error e →
        (get_airport_code_list dbFetch csvFetch t c).1 = csvFetch t c ∧
        List.count ResolverPath.fallback (get_airport_code_list dbFetch csvFetch t c).2 = 1) ∧
    (∀ v, dbFetch t c = Except.ok v →
        (get_airport_code_list dbFetch csvFetch t c).1 = Except.ok v ∧
        ResolverPath.fallback ∉ (get_airport_code_list dbFetch csvFetch t c).2) := by
  constructor
  · intro e h
    exact ⟨by simp [get_airport_code_list, h], by simp [get_airport_code_list, h]⟩
  · intro v h
    exact ⟨by simp [get_airport_code_list, h], by simp [get_airport_code_list, h]⟩

/-- A database oracle that always raises. -/
def dbFailOracle : String → String → Except PyError (List String) :=
  fun _ _ => Except.error PyError.typeError

/-- A CSV oracle that returns the two Tunisian airport codes. -/
def csvOkOracle : String → String → Except PyError (List String) :=
  fun _ _ => Except.ok ["DTTA", "DTMB"]

/-- Witness for C1: with a failing primary and a succeeding fallback,
the resolver returns the fallback codes and attempted the fallback
exactly once. -/
theorem c1_resolver_fallback_witness :
    (get_airport_code_list dbFailOracle csvOkOracle "ICAO" "Tunisia").1 = Except.ok ["DTTA", "DTMB"] ∧
    List.count ResolverPath.fallback (get_airport_code_list dbFailOracle csvOkOracle "ICAO" "Tunisia").2 = 1 :=
  (c1_resolver_fallback dbFailOracle csvOkOracle "ICAO" "Tunisia").1 PyError.typeError rfl

/-- C2: a key missing at any navigation step of the flattener yields an
empty record sequence, never a truncated one, together with an ERROR log
naming the missing key; in particular a document whose header lacks the
date key flattens to the empty sequence. -/
theorem c2_flattener_all_or_nothing :
    (∀ (jd : JValue) (k : String), flattenCore jd = Except.error (PyError.keyError k) →
        flattenStage jd = Except.ok ([], [(LogLevel.error, LogMsg.keyMissing k)])) ∧
    flattenStage docMissingDate = Except.ok ([], [(LogLevel.error, LogMsg.keyMissing "date")]) := by
  constructor
  · intro jd k h
    simp [flattenStage, h]
  · rfl

/-- Witness for C2: the document missing the header date key raises
exactly KeyError date inside navigation, and the flattener returns the
empty sequence with the naming ERROR log. -/
theorem c2_flattener_all_or_nothing_witness :
    flattenCore docMissingDate = Except.error (PyError.keyError "date") ∧
    flattenStage docMissingDate = Except.ok ([], [(LogLevel.error, LogMsg.keyMissing "date")]) :=
  ⟨rfl, c2_flattener_all_or_nothing.1 docMissingDate "date" rfl⟩

/-- C3: on an HTML string containing the marker assignment of the object
literal with member a mapped to 1, the extraction chain captures exactly
that literal and parses it back to the one-member object. -/
theorem c3_extractor_round_trip :
    extractNextData htmlSample = some (JValue.obj [("a", JValue.num 1)]) ∧
    reSearchGroup htmlSample = some "\x7b\"a\":1\x7d" := ⟨rfl, rfl⟩

/-- C9: the database connection scope closes the connection on both the
normal and the exceptional exit of the scoped block, and the block
outcome, value or exception, passes through unsuppressed. -/
theorem c9_connection_scope (q : Except PyError (List String)) :
    ((get_airport_code_list_db q).2.closed = true) ∧ (get_airport_code_list_db q).1 = q := by
  cases q <;> simp [get_airport_code_list_db, DatabaseConnection.close]

/-- A synthetic HTML page that nowhere contains the marker token. -/
def htmlNoMarker : String := "<html><body>no data here</body></html>"

/-- C4: on any response text in which the marker pattern has no
occurrence, the extraction step returns the empty result with a WARNING
log instead of raising; moreover absence of the literal marker token
already guarantees the pattern has no occurrence. -/
theorem c4_no_marker_extraction :
    (∀ text : String, reSearch text.data = none →
        scrap_flight_stats (Except.ok text) =
          Except.ok ([], [(LogLevel.info, LogMsg.fetchingData), (LogLevel.debug, LogMsg.responseSnippet),
            (LogLevel.warning, LogMsg.noJsonFound)])) ∧
    (∀ text : String, ¬ markerChars <:+: text.data → reSearch text.data = none) := by
  constructor
  · intro text h
    simp [scrap_flight_stats, reSearchGroup, h]
  · intro text h
    cases hs : reSearch text.data with
    | none => rfl
    | some g => exact absurd (reSearch_some_marker_occurs text.data g hs) h

/-- Witness for C4: a concrete marker-free page extracts to the empty
result with the WARNING log. -/
theorem c4_no_marker_extraction_witness :
    scrap_flight_stats (Except.ok htmlNoMarker) =
      Except.ok ([], [(LogLevel.info, LogMsg.fetchingData), (LogLevel.debug, LogMsg.responseSnippet),
        (LogLevel.warning, LogMsg.noJsonFound)]) :=
  c4_no_marker_extraction.1 htmlNoMarker
    (c4_no_marker_extraction.2 htmlNoMarker (by decide))

/-! ### Association-list lemmas for the enrichment claim -/

/-- Lookup passes over a left part that lacks the key. -/
theorem assocLookup_append_of_none (a b : List (String × JValue)) (k : String)
    (h : assocLookup a k = none) : assocLookup (a ++ b) k = assocLookup b k := by
  induction a with
  | nil => rfl
  | cons p rest ih =>
      obtain ⟨pk, pv⟩ := p
      by_cases hpk : pk = k
      · simp [assocLookup, hpk] at h
      · simp only [assocLookup, if_neg hpk] at h
        simpa [assocLookup, hpk] using ih h

/-- Lookup found in the left part is unchanged by an appended right part. -/
theorem assocLookup_append_of_some (a b : List (String × JValue)) (k : String) (v : JValue)
    (h : assocLookup a k = some v) : assocLookup (a ++ b) k = some v := by
  induction a with
  | nil => simp [assocLookup] at h
  | cons p rest ih =>
      obtain ⟨pk, pv⟩ := p
      by_cases hpk : pk = k
      · simp only [assocLookup, if_pos hpk] at h
        simp [assocLookup, hpk, h]
      · simp only [assocLookup, if_neg hpk] at h
        simpa [assocLookup, hpk] using ih h

/-- Assigning an absent key appends the pair at the end, as Python dict
insertion order prescribes. -/
theorem assocSet_append_of_none (kvs : List (String × JValue)) (k : String) (x : JValue)
    (h : assocLookup kvs k = none) : assocSet kvs k x = kvs ++ [(k, x)] := by
  induction kvs with
  | nil => rfl
  | cons p rest ih =>
      obtain ⟨pk, pv⟩ := p
      by_cases hpk : pk = k
      · simp [assocLookup, hpk] at h
      · simp only [assocLookup, if_neg hpk] at h
        simp [assocSet, hpk, ih h]

/-- An effectful map whose body always succeeds is the plain map. -/
theorem mapExcept_ok (f : JValue → Except PyError JValue) (g : JValue → JValue)
    (l : List JValue) (h : ∀ x ∈ l, f x = Except.ok (g x)) :
    mapExcept f l = Except.ok (l.map g) := by
  induction l with
  | nil => rfl
  | cons x xs ih =>
      simp [mapExcept, h x (List.mem_cons_self x xs),
        ih (fun y hy => h y (List.mem_cons_of_mem x hy))]

/-- The four enrichment pairs appended to a flight dict, in assignment
order. -/
def enrichmentFields (dv iv cv nv : JValue) : List (String × JValue) :=
  [("date", dv), ("iata", iv), ("icao", cv), ("airport_name", nv)]

/-- One loop iteration on a flight dict free of the four enrichment
keys appends exactly the four header copies, in assignment order. -/
theorem enrichFlight_ok (flightTracker route header aa dv iv cv nv : JValue)
    (kvs : List (String × JValue))
    (h4 : getKey flightTracker "route" = Except.ok route)
    (h6 : getKey route "header" = Except.ok header)
    (hd : getKey header "date" = Except.ok dv)
    (ha : getKey header "arrivalAirport" = Except.ok aa)
    (hi : getKey aa "iata" = Except.ok iv)
    (hc : getKey aa "icao" = Except.ok cv)
    (hn : getKey aa "name" = Except.ok nv)
    (hf1 : assocLookup kvs "date" = none)
    (hf2 : assocLookup kvs "iata" = none)
    (hf3 : assocLookup kvs "icao" = none)
    (hf4 : assocLookup kvs "airport_name" = none) :
    enrichFlight flightTracker (JValue.obj kvs) =
      Except.ok (JValue.obj (kvs ++ enrichmentFields dv iv cv nv)) := by
  have l2 : assocLookup (kvs ++ [("date", dv)]) "iata" = none := by
    rw [assocLookup_append_of_none _ _ _ hf2]; rfl
  have l3a : assocLookup (kvs ++ [("date", dv)]) "icao" = none := by
    rw [assocLookup_append_of_none _ _ _ hf3]; rfl
  have l3 : assocLookup (kvs ++ [("date", dv)] ++ [("iata", iv)]) "icao" = none := by
    rw [assocLookup_append_of_none _ _ _ l3a]; rfl
  have l4a : assocLookup (kvs ++ [("date", dv)]) "airport_name" = none := by
    rw [assocLookup_append_of_none _ _ _ hf4]; rfl
  have l4b : assocLookup (kvs ++ [("date", dv)] ++ [("iata", iv)]) "airport_name" = none := by
    rw [assocLookup_append_of_none _ _ _ l4a]; rfl
  have l4 : assocLookup (kvs ++ [("date", dv)] ++ [("iata", iv)] ++ [("icao", cv)])
      "airport_name" = none := by
    rw [assocLookup_append_of_none _ _ _ l4b]; rfl
  simp only [enrichFlight, h4, h6, hd, ha, hi, hc, hn, setKey]
  rw [assocSet_append_of_none kvs "date" dv hf1,
    assocSet_append_of_none _ "iata" iv l2,
    assocSet_append_of_none _ "icao" cv l3,
    assocSet_append_of_none _ "airport_name" nv l4]
  simp [enrichmentFields]

/-- Successful navigation turns the flattener core into a plain map of
the enrichment over the flight list. -/
theorem flattenCore_ok (jd props initialState flightTracker route header aa dv iv cv nv : JValue)
    (fs : List (List (String × JValue)))
    (h1 : getKey jd "props" = Except.ok props)
    (h2 : getKey props "initialState" = Except.ok initialState)
    (h3 : getKey initialState "flightTracker" = Except.ok flightTracker)
    (h4 : getKey flightTracker "route" = Except.ok route)
    (h5 : getKey route "flights" = Except.ok (JValue.arr (fs.map JValue.obj)))
    (h6 : getKey route "header" = Except.ok header)
    (hd : getKey header "date" = Except.ok dv)
    (ha : getKey header "arrivalAirport" = Except.ok aa)
    (hi : getKey aa "iata" = Except.ok iv)
    (hc : getKey aa "icao" = Except.ok cv)
    (hn : getKey aa "name" = Except.ok nv)
    (hfresh : ∀ kvs ∈ fs, assocLookup kvs "date" = none ∧ assocLookup kvs "iata" = none ∧
        assocLookup kvs "icao" = none ∧ assocLookup kvs "airport_name" = none) :
    flattenCore jd =
      Except.ok (fs.map (fun kvs => JValue.obj (kvs ++ enrichmentFields dv iv cv nv))) := by
  have hall : ∀ x ∈ fs.map JValue.obj, enrichFlight flightTracker x =
      Except.ok ((fun v => JValue.obj (objPairs v ++ enrichmentFields dv iv cv nv)) x) := by
    intro x hx
    obtain ⟨kvs, hk, rfl⟩ := List.mem_map.mp hx
    obtain ⟨hf1, hf2, hf3, hf4⟩ := hfresh kvs hk
    simpa [objPairs] using
      enrichFlight_ok flightTracker route header aa dv iv cv nv kvs
        h4 h6 hd ha hi hc hn hf1 hf2 hf3 hf4
  simp only [flattenCore, h1, h2, h3, h4, h5]
  rw [mapExcept_ok _ _ _ hall]
  simp [List.map_map, Function.comp, objPairs]

/-- C5: for every document whose flight list and header are present at
the expected paths and whose flight entries do not already use the four
enrichment keys, every returned record carries identical copies of the
four header fields date, iata, icao and airport_name appended after its
own original fields, and every original field remains readable
unchanged. -/
theorem c5_flattener_enrichment
    (jd props initialState flightTracker route header aa dv iv cv nv : JValue)
    (fs : List (List (String × JValue)))
    (h1 : getKey jd "props" = Except.ok props)
    (h2 : getKey props "initialState" = Except.ok initialState)
    (h3 : getKey initialState "flightTracker" = Except.ok flightTracker)
    (h4 : getKey flightTracker "route" = Except.ok route)
    (h5 : getKey route "flights" = Except.ok (JValue.arr (fs.map JValue.obj)))
    (h6 : getKey route "header" = Except.ok header)
    (hd : getKey header "date" = Except.ok dv)
    (ha : getKey header "arrivalAirport" = Except.ok aa)
    (hi : getKey aa "iata" = Except.ok iv)
    (hc : getKey aa "icao" = Except.ok cv)
    (hn : getKey aa "name" = Except.ok nv)
    (hfresh : ∀ kvs ∈ fs, assocLookup kvs "date" = none ∧ assocLookup kvs "iata" = none ∧
        assocLookup kvs "icao" = none ∧ assocLookup kvs "airport_name" = none) :
    flattenStage jd = Except.ok
        (fs.map (fun kvs => JValue.obj (kvs ++ enrichmentFields dv iv cv nv)),
         [(LogLevel.info, LogMsg.flightsFound fs.length)]) ∧
    ∀ kvs ∈ fs,
      assocLookup (kvs ++ enrichmentFields dv iv cv nv) "date" = some dv ∧
      assocLookup (kvs ++ enrichmentFields dv iv cv nv) "iata" = some iv ∧
      assocLookup (kvs ++ enrichmentFields dv iv cv nv) "icao" = some cv ∧
      assocLookup (kvs ++ enrichmentFields dv iv cv nv) "airport_name" = some nv ∧
      ∀ k, k ≠ "date" → k ≠ "iata" → k ≠ "icao" → k ≠ "airport_name" →
        assocLookup (kvs ++ enrichmentFields dv iv cv nv) k = assocLookup kvs k := by
  constructor
  · rw [flattenStage,
      flattenCore_ok jd props initialState flightTracker route header aa dv iv cv nv fs
        h1 h2 h3 h4 h5 h6 hd ha hi hc hn hfresh]
    simp
  · intro kvs hk
    obtain ⟨hf1, hf2, hf3, hf4⟩ := hfresh kvs hk
    refine ⟨?_, ?_, ?_, ?_, ?_⟩
    · rw [assocLookup_append_of_none _ _ _ hf1]; rfl
    · rw [assocLookup_append_of_none _ _ _ hf2]; rfl
    · rw [assocLookup_append_of_none _ _ _ hf3]; rfl
    · rw [assocLookup_append_of_none _ _ _ hf4]; rfl
    · intro k hk1 hk2 hk3 hk4
      cases hsome : assocLookup kvs k with
      | some v => rw [assocLookup_append_of_some _ _ _ _ hsome]
      | none =>
          rw [assocLookup_append_of_none _ _ _ hsome]
          simp only [enrichmentFields, assocLookup,
            if_neg (Ne.symm hk1), if_neg (Ne.symm hk2),
            if_neg (Ne.symm hk3), if_neg (Ne.symm hk4)]

/-- First flight entry of the enrichment example. -/
def sampleFlight1 : List (String × JValue) := [("flight", JValue.str "TU 721")]

/-- Second flight entry of the enrichment example. -/
def sampleFlight2 : List (String × JValue) := [("flight", JValue.str "AF 84")]

/-- Header of the enrichment example: the field values of the spec. -/
def sampleHeader : JValue := JValue.obj [("date", JValue.str "2025-06-01"),
  ("arrivalAirport", JValue.obj [("iata", JValue.str "TUN"), ("icao", JValue.str "DTTA"),
    ("name", JValue.str "Tunis-Carthage")])]

/-- A complete document with the example header and two flight entries. -/
def sampleDoc : JValue :=
  JValue.obj [("props", JValue.obj [("initialState", JValue.obj [("flightTracker",
    JValue.obj [("route", JValue.obj [
      ("flights", JValue.arr ([sampleFlight1, sampleFlight2].map JValue.obj)),
      ("header", sampleHeader)])])])])]

/-- Witness for C5: on the example document, both output records carry
the identical four header copies after their own fields. -/
theorem c5_flattener_enrichment_witness :
    flattenStage sampleDoc = Except.ok
      ([JValue.obj (sampleFlight1 ++ enrichmentFields (JValue.str "2025-06-01")
          (JValue.str "TUN") (JValue.str "DTTA") (JValue.str "Tunis-Carthage")),
        JValue.obj (sampleFlight2 ++ enrichmentFields (JValue.str "2025-06-01")
          (JValue.str "TUN") (JValue.str "DTTA") (JValue.str "Tunis-Carthage"))],
       [(LogLevel.info, LogMsg.flightsFound 2)]) :=
  (c5_flattener_enrichment sampleDoc _ _ _ _ sampleHeader _
      (JValue.str "2025-06-01") (JValue.str "TUN") (JValue.str "DTTA") (JValue.str "Tunis-Carthage")
      [sampleFlight1, sampleFlight2]
      rfl rfl rfl rfl rfl rfl rfl rfl rfl rfl rfl
      (by
        intro kvs hk
        simp only [List.mem_cons, List.not_mem_nil, or_false] at hk
        rcases hk with rfl | rfl <;> exact ⟨rfl, rfl, rfl, rfl⟩)).1

/-- A concrete configuration for the writer examples. -/
def sampleCfg : Config := ⟨"dbt/data", "extract_load/output", "tunisia_arrivals.csv"⟩

/-- A window oracle yielding one record per window. -/
def oneRecOracle : String → Nat → List JValue :=
  fun _ _ => [JValue.obj [("num", JValue.num 1)]]

/-- A window oracle yielding nothing anywhere. -/
def emptyOracle : String → Nat → List JValue := fun _ _ => []

/-- C6: an empty aggregate record sequence produces a WARNING and no
write; a nonempty one produces exactly two writes of the same flattened
table, at the two configuration-fixed paths, UTF-8 encoded and without a
row-index column. -/
theorem c6_aggregator_writes (cfg : Config) (codes : List String)
    (oracle : String → Nat → List JValue) :
    (collectFlights codes oracle = [] →
        mainRun cfg codes oracle = ([], [(LogLevel.warning, LogMsg.noFlightData)])) ∧
    (collectFlights codes oracle ≠ [] →
        (mainRun cfg codes oracle).1.length = 2 ∧
        (mainRun cfg codes oracle).1.map CsvWrite.filePath = output_paths cfg ∧
        (mainRun cfg codes oracle).1.map CsvWrite.table =
          [renameColumns (json_normalize (collectFlights codes oracle)),
           renameColumns (json_normalize (collectFlights codes oracle))] ∧
        (mainRun cfg codes oracle).1.map CsvWrite.index = [false, false] ∧
        (mainRun cfg codes oracle).1.map CsvWrite.encoding = ["utf-8", "utf-8"]) := by
  constructor
  · intro h
    simp [mainRun, h]
  · intro h
    have hne : (collectFlights codes oracle).isEmpty = false := by
      cases hc : collectFlights codes oracle with
      | nil => exact absurd hc h
      | cons x xs => rfl
    refine ⟨?_, ?_, ?_, ?_, ?_⟩ <;> simp [mainRun, hne, output_paths]

/-- Witness for C6: the empty run warns and writes nothing; a one-code
run with records writes the same table twice to the two fixed paths with
no index and UTF-8 encoding. -/
theorem c6_aggregator_writes_witness :
    mainRun sampleCfg [] emptyOracle = ([], [(LogLevel.warning, LogMsg.noFlightData)]) ∧
    ((mainRun sampleCfg ["DTTA"] oneRecOracle).1.length = 2 ∧
     (mainRun sampleCfg ["DTTA"] oneRecOracle).1.map CsvWrite.filePath = output_paths sampleCfg ∧
     (mainRun sampleCfg ["DTTA"] oneRecOracle).1.map CsvWrite.table =
       [renameColumns (json_normalize (collectFlights ["DTTA"] oneRecOracle)),
        renameColumns (json_normalize (collectFlights ["DTTA"] oneRecOracle))] ∧
     (mainRun sampleCfg ["DTTA"] oneRecOracle).1.map CsvWrite.index = [false, false] ∧
     (mainRun sampleCfg ["DTTA"] oneRecOracle).1.map CsvWrite.encoding = ["utf-8", "utf-8"]) :=
  ⟨(c6_aggregator_writes sampleCfg [] emptyOracle).1 rfl,
   (c6_aggregator_writes sampleCfg ["DTTA"] oneRecOracle).2
     (by simp [collectFlights, valid_hours, oneRecOracle])⟩

/-- Join name segments with a separator, the shape of the column names
json_normalize derives from nested keys. -/
def joinSep (sep : String) : List String → String
  | [] => ""
  | [s] => s
  | s :: rest => s ++ sep ++ joinSep sep rest

/-- A chain of singleton nested objects ending in a leaf value: the
canonical nested record along one key path. -/
def nestChain (v : JValue) : List String → List (String × JValue)
  | [] => []
  | [k] => [(k, v)]
  | k :: rest => [(k, JValue.obj (nestChain v rest))]

/-- The column renaming distributes over string concatenation. -/
theorem colNormalize_append (a b : String) :
    colNormalize (a ++ b) = colNormalize a ++ colNormalize b := by
  apply String.ext
  simp [colNormalize, String.data_append]

/-- A dot-free column name is unchanged by the renaming. -/
theorem colNormalize_of_no_dot (s : String) (h : ∀ c ∈ s.data, c ≠ '.') :
    colNormalize s = s := by
  apply String.ext
  simp only [colNormalize]
  have hcong : ∀ c ∈ s.data, replaceDotChar c = id c := by
    intro c hc
    simp [replaceDotChar, h c hc]
  rw [List.map_congr_left hcong, List.map_id]

/-- On dot-free segments the renaming turns a dot-joined column name
into the underscore-joined one. -/
theorem colNormalize_joinSep (segs : List String)
    (h : ∀ s ∈ segs, ∀ c ∈ s.data, c ≠ '.') :
    colNormalize (joinSep "." segs) = joinSep "_" segs := by
  induction segs with
  | nil => rfl
  | cons s rest ih =>
      cases rest with
      | nil => exact colNormalize_of_no_dot s (h s (by simp))
      | cons t rest2 =>
          simp only [joinSep]
          rw [colNormalize_append, colNormalize_append,
            colNormalize_of_no_dot s (h s (by simp)),
            ih (fun x hx => h x (by simp [hx]))]
          rfl

/-- Flattening a single nested chain produces the one dot-joined column. -/
theorem flattenPairs_nestChain (v : JValue) (hv : ∀ kvs, v ≠ JValue.obj kvs) :
    ∀ (segs : List String), segs ≠ [] →
      flattenPairs (nestChain v segs) = [(joinSep "." segs, v)]
  | [], hne => absurd rfl hne
  | [k], _ => by
      cases v with
      | obj kvs => exact absurd rfl (hv kvs)
      | str s => simp [nestChain, flattenPairs, joinSep]
      | num n => simp [nestChain, flattenPairs, joinSep]
      | bool b => simp [nestChain, flattenPairs, joinSep]
      | null => simp [nestChain, flattenPairs, joinSep]
      | arr xs => simp [nestChain, flattenPairs, joinSep]
  | k :: t :: rest2, _ => by
      have ih := flattenPairs_nestChain v hv (t :: rest2) (by simp)
      simp only [nestChain, flattenPairs, joinSep, ih]
      rfl

/-- C7: every column name derived from a nested record key has its dot
separators turned into underscores by the renaming, and no character
other than a dot is ever altered; the renaming touches only the column
names, never the rows. -/
theorem c7_column_normalization :
    (∀ segs : List String, (∀ s ∈ segs, ∀ c ∈ s.data, c ≠ '.') →
        colNormalize (joinSep "." segs) = joinSep "_" segs) ∧
    (∀ s : String, (colNormalize s).data = s.data.map replaceDotChar) ∧
    (∀ c : Char, c ≠ '.' → replaceDotChar c = c) ∧
    (∀ df : DataFrame, (renameColumns df).columns = df.columns.map colNormalize ∧
        (renameColumns df).rows = df.rows) ∧
    (∀ (v : JValue) (segs : List String), (∀ kvs, v ≠ JValue.obj kvs) → segs ≠ [] →
        flattenPairs (nestChain v segs) = [(joinSep "." segs, v)]) := by
  refine ⟨colNormalize_joinSep, fun s => rfl, ?_, fun df => ⟨rfl, rfl⟩,
    fun v segs hv hne => flattenPairs_nestChain v hv segs hne⟩
  intro c hc
  simp [replaceDotChar, hc]

/-- Witness for C7: the nested operator iata chain flattens to the
dot-joined column and renames to the underscore-joined one. -/
theorem c7_column_normalization_witness :
    colNormalize (joinSep "." ["operator", "iata"]) = joinSep "_" ["operator", "iata"] ∧
    flattenPairs (nestChain (JValue.num 1) ["operator", "iata"]) =
      [(joinSep "." ["operator", "iata"], JValue.num 1)] :=
  ⟨c7_column_normalization.1 ["operator", "iata"] (by decide),
   c7_column_normalization.2.2.2.2 (JValue.num 1) ["operator", "iata"]
     (fun kvs h => JValue.noConfusion h) (by simp)⟩

/-- Window oracle of the end-to-end example: the four DTTA windows and
the DTMB hour-0 window succeed with three records each; the other three
windows yield nothing. -/
def sampleOracle (c : String) (h : Nat) : List JValue :=
  if c = "DTTA" ∨ (c = "DTMB" ∧ h = 0) then
    [JValue.obj [("num", JValue.num 1)], JValue.obj [("num", JValue.num 2)],
     JValue.obj [("num", JValue.num 3)]]
  else []

/-- C8: the run processes exactly the cross product of the resolved
codes with the four fixed hours, the aggregate record count is the sum
of the per-window counts, and in the concrete two-code example with five
succeeding windows of three records each both written tables have
fifteen rows. -/
theorem c8_cross_product_row_count :
    (∀ (codes : List String) (oracle : String → Nat → List JValue),
        collectFlights codes oracle = (windows codes).flatMap (fun w => oracle w.1 w.2) ∧
        (collectFlights codes oracle).length =
          ((windows codes).map (fun w => (oracle w.1 w.2).length)).sum ∧
        (∀ (c : String) (hr : Nat), (c, hr) ∈ windows codes ↔ c ∈ codes ∧ hr ∈ valid_hours)) ∧
    (collectFlights ["DTTA", "DTMB"] sampleOracle).length = 15 ∧
    (mainRun sampleCfg ["DTTA", "DTMB"] sampleOracle).1.map
      (fun w => w.table.rows.length) = [15, 15] := by
  refine ⟨?_, by rfl, by rfl⟩
  intro codes oracle
  have h1 : collectFlights codes oracle = (windows codes).flatMap (fun w => oracle w.1 w.2) := by
    simp [collectFlights, windows, List.flatMap_assoc, List.flatMap_map]
  refine ⟨h1, ?_, ?_⟩
  · rw [h1, List.length_flatMap]
    rfl
  · intro c hr
    simp [windows, valid_hours]
    constructor
    · rintro ⟨a, ha, h⟩
      rcases h with h | h | h | h <;> simp_all
    · rintro ⟨hc, hh⟩
      exact ⟨c, hc, by tauto⟩

/-- C10: rows appear in the deterministic input-driven order — grouped
by airport code in resolver order, then by hour in order 0, 6, 12, 18,
then by flight-entry order within a window — and aggregation maps each
collected record to exactly one row in that order, with no reordering,
deduplication or dropping. -/
theorem c10_row_order (codes : List String) (oracle : String → Nat → List JValue) :
    collectFlights codes oracle =
      codes.flatMap (fun c => oracle c 0 ++ oracle c 6 ++ oracle c 12 ++ oracle c 18) ∧
    (∀ records : List JValue,
        (json_normalize records).rows =
          records.map (fun r => (json_normalize records).columns.map
            (fun col => assocLookup (flattenPairs (objPairs r)) col)) ∧
        (json_normalize records).rows.length = records.length) ∧
    (∀ cfg : Config,
        (mainRun cfg codes oracle).1.map (fun w => w.table.rows) =
          (mainRun cfg codes oracle).1.map
            (fun _ => (renameColumns (json_normalize (collectFlights codes oracle))).rows) ∧
        (mainRun cfg codes oracle).1.map (fun w => w.table.rows.length) =
          (mainRun cfg codes oracle).1.map (fun _ => (collectFlights codes oracle).length)) := by
  refine ⟨?_, ?_, ?_⟩
  · simp [collectFlights, valid_hours, List.append_assoc]
  · intro records
    constructor
    · simp [json_normalize, List.map_map, Function.comp]
    · simp [json_normalize]
  · intro cfg
    by_cases hemp : (collectFlights codes oracle).isEmpty = true
    · constructor <;> simp [mainRun, hemp]
    · have hne : (collectFlights codes oracle).isEmpty = false :=
        Bool.eq_false_iff.mpr hemp
      constructor
      · simp [mainRun, hne]
      · simp [mainRun, hne, renameColumns, json_normalize]

end AeroVision
